import Mathlib

/-
Verification of `src/primitives/src/dapp_staking.rs` (Astar dApp staking
primitives) against its natural-language specification.

The file shallowly embeds the Rust source: machine integers become `Nat`
with explicit clamping at the type's maximum where the source uses
saturating arithmetic; traits with method implementations become Lean
structures of functions; the `()` implementations of `Observer` and
`AccountCheck` become concrete values of those structures.
-/

namespace DappStaking

/-- Maximum value representable in a `u32` (the Rust `EraNumber`,
`PeriodNumber` and `BlockNumber` types are all `u32`: the source line
`Self::blocks_per_era().saturating_mul(Self::cycle_in_era_lengths())`
only type-checks because `BlockNumber` and `EraNumber` are the same
primitive integer type). -/
def U32_MAX : ℕ := 2 ^ 32 - 1

/-- `u32::saturating_add` on values embedded as naturals: the sum clamps
at `U32_MAX` instead of wrapping. -/
def satAdd32 (a b : ℕ) : ℕ := min (a + b) U32_MAX

/-- `u32::saturating_mul` on values embedded as naturals: the product
clamps at `U32_MAX` instead of wrapping. -/
def satMul32 (a b : ℕ) : ℕ := min (a * b) U32_MAX

/-- The four base constants of the `CycleConfiguration` trait. Each is a
`u32` in the source; here a configuration is any assignment of naturals
to the four accessors (every `u32` configuration is one of these). -/
structure CycleConfiguration where
  periods_per_cycle : ℕ
  eras_per_voting_subperiod : ℕ
  eras_per_build_and_earn_subperiod : ℕ
  blocks_per_era : ℕ

namespace CycleConfiguration

/-- Source: `fn period_in_era_lengths()`, which returns
`eras_per_voting_subperiod().saturating_add(eras_per_build_and_earn_subperiod())`. -/
def period_in_era_lengths (c : CycleConfiguration) : ℕ :=
  satAdd32 c.eras_per_voting_subperiod c.eras_per_build_and_earn_subperiod

/-- Source: `fn cycle_in_era_lengths()`, which returns
`period_in_era_lengths().saturating_mul(periods_per_cycle())`. -/
def cycle_in_era_lengths (c : CycleConfiguration) : ℕ :=
  satMul32 c.period_in_era_lengths c.periods_per_cycle

/-- Source: `fn blocks_per_cycle()`, which returns
`blocks_per_era().saturating_mul(cycle_in_era_lengths())`. -/
def blocks_per_cycle (c : CycleConfiguration) : ℕ :=
  satMul32 c.blocks_per_era c.cycle_in_era_lengths

/-- Source: `fn build_and_earn_eras_per_cycle()`, which returns
`eras_per_build_and_earn_subperiod().saturating_mul(periods_per_cycle())`. -/
def build_and_earn_eras_per_cycle (c : CycleConfiguration) : ℕ :=
  satMul32 c.eras_per_build_and_earn_subperiod c.periods_per_cycle

/-- Source: `fn eras_per_period()`, which returns
`eras_per_build_and_earn_subperiod().saturating_add(1)`. -/
def eras_per_period (c : CycleConfiguration) : ℕ :=
  satAdd32 c.eras_per_build_and_earn_subperiod 1

/-- Source: `fn eras_per_cycle()`, which returns
`eras_per_period().saturating_mul(periods_per_cycle())`. -/
def eras_per_cycle (c : CycleConfiguration) : ℕ :=
  satMul32 c.eras_per_period c.periods_per_cycle

/-- A valid configuration per the source doc comments: each of the four
base constants "has to be at least 1". -/
def Valid (c : CycleConfiguration) : Prop :=
  1 ≤ c.periods_per_cycle ∧ 1 ≤ c.eras_per_voting_subperiod ∧
    1 ≤ c.eras_per_build_and_earn_subperiod ∧ 1 ≤ c.blocks_per_era

instance (c : CycleConfiguration) : Decidable c.Valid := by
  unfold Valid; infer_instance

end CycleConfiguration

/-- The example configuration from the spec's testable property 6. -/
def exampleConfig : CycleConfiguration :=
  { periods_per_cycle := 2
    eras_per_voting_subperiod := 3
    eras_per_build_and_earn_subperiod := 4
    blocks_per_era := 100 }

/-- A configuration with every base constant at `u32::MAX`. -/
def allMaxConfig : CycleConfiguration :=
  { periods_per_cycle := U32_MAX
    eras_per_voting_subperiod := U32_MAX
    eras_per_build_and_earn_subperiod := U32_MAX
    blocks_per_era := U32_MAX }

/-- A valid configuration whose build-and-earn subperiod length is at the
maximum representable `u32` value. -/
def maxBuildAndEarnConfig : CycleConfiguration :=
  { periods_per_cycle := 1
    eras_per_voting_subperiod := 1
    eras_per_build_and_earn_subperiod := U32_MAX
    blocks_per_era := 1 }

/-- The `Weight` cost type from `frame_support` (external dependency):
a two-dimensional computational cost, reference time and proof size,
each a `u64` embedded as a natural. -/
structure Weight where
  ref_time : ℕ
  proof_size : ℕ

/-- `Weight::zero()`: the zero cost. -/
def Weight.zero : Weight := ⟨0, 0⟩

/-- The `Observer` trait: a listener called in the block right before
the next era starts, reporting the weight it consumed. -/
structure Observer where
  block_before_new_era : ℕ → Weight

/-- Source: `impl Observer for ()`, which keeps the trait's default
method body `fn block_before_new_era(_next_era: EraNumber) -> Weight
{ Weight::zero() }`. -/
def unitObserver : Observer :=
  { block_before_new_era := fun _ => Weight.zero }

/-- The `AccountCheck` trait: whether an account may participate in
dApp staking, for a caller-supplied account-identifier type. -/
structure AccountCheck (AccountId : Type) where
  allowed_to_stake : AccountId → Bool

/-- Source: `impl<AccountId> AccountCheck<AccountId> for ()`, whose
`allowed_to_stake(_account)` body is `true`. -/
def unitAccountCheck (AccountId : Type) : AccountCheck AccountId :=
  { allowed_to_stake := fun _ => true }

/-- The `sp_core::H160` EVM address type (external dependency): a
20-byte array. -/
structure H160 where
  bytes : Fin 20 → Fin 256

/-- Source: `enum SmartContract<AccountId> { Evm(H160), Wasm(AccountId) }`,
with derived structural `PartialEq`/`Eq`. -/
inductive SmartContract (AccountId : Type) where
  | Evm (address : H160)
  | Wasm (address : AccountId)

/-- Source: `SmartContractHandle::evm` as implemented for
`SmartContract`, returning `Self::Evm(address)`. -/
def SmartContract.evm {AccountId : Type} (address : H160) : SmartContract AccountId :=
  SmartContract.Evm address

/-- Source: `SmartContractHandle::wasm` as implemented for
`SmartContract`, returning `Self::Wasm(address)`. -/
def SmartContract.wasm {AccountId : Type} (address : AccountId) : SmartContract AccountId :=
  SmartContract.Wasm address

/-- Modelled from the spec: the external ledger collaborator behind
`StakingRewardHandler::payout_reward`. Only the trait declaration
`fn payout_reward(beneficiary: &AccountId, reward: Balance) -> Result<(), ()>`
is under `src/`, so the ledger state is taken from the spec's words: a
balance per account (`Balance`, an unsigned integer), and an opaque
per-account predicate covering the ledger's failure modes (beneficiary
cannot receive funds, capacity exceeded), visible to this core only as
success/failure. -/
structure Ledger (AccountId : Type) where
  balance : AccountId → ℕ
  canReceive : AccountId → Bool

/-- Modelled from the spec: `payout_reward(beneficiary, reward)` attempts
to credit the full `reward` to `beneficiary` via the external ledger,
returning the `Result<(), ()>` outcome together with the resulting
ledger state: on success the full amount is credited to the beneficiary,
on failure a generic failure signal is returned and the ledger is left
unchanged. -/
def payout_reward {AccountId : Type} [DecidableEq AccountId]
    (st : Ledger AccountId) (beneficiary : AccountId) (reward : ℕ) :
    Except Unit Unit × Ledger AccountId :=
  if st.canReceive beneficiary then
    (Except.ok (),
      { st with
          balance := fun a => if a = beneficiary then st.balance a + reward else st.balance a })
  else
    (Except.error (), st)

/-- A ledger over two accounts on which every payout succeeds. -/
def okLedger : Ledger Bool := { balance := fun _ => 10, canReceive := fun _ => true }

/-- A ledger over two accounts on which every payout fails. -/
def failLedger : Ledger Bool := { balance := fun _ => 10, canReceive := fun _ => false }

end DappStaking

namespace DappStaking

open CycleConfiguration

/-- C1: for every configuration of the four base constants, the derived
lengths satisfy their defining equations with saturating arithmetic:
`period_in_era_lengths` is the saturating sum of the two subperiod
lengths, `cycle_in_era_lengths` is the saturating product of
`period_in_era_lengths` and `periods_per_cycle`, and `blocks_per_cycle`
is the saturating product of `blocks_per_era` and
`cycle_in_era_lengths`. -/
theorem cycle_calculator_defining_equations (c : CycleConfiguration) :
    c.period_in_era_lengths =
      min (c.eras_per_voting_subperiod + c.eras_per_build_and_earn_subperiod) U32_MAX ∧
    c.cycle_in_era_lengths = min (c.period_in_era_lengths * c.periods_per_cycle) U32_MAX ∧
    c.blocks_per_cycle = min (c.blocks_per_era * c.cycle_in_era_lengths) U32_MAX := by
  refine ⟨rfl, rfl, rfl⟩

/-- C4: on the configuration `periods_per_cycle = 2`,
`eras_per_voting_subperiod = 3`, `eras_per_build_and_earn_subperiod = 4`,
`blocks_per_era = 100`, the derived accessors return 7, 14, 1400, 5, 10
and 8 respectively. -/
theorem example_configuration_values :
    exampleConfig.period_in_era_lengths = 7 ∧
    exampleConfig.cycle_in_era_lengths = 14 ∧
    exampleConfig.blocks_per_cycle = 1400 ∧
    exampleConfig.eras_per_period = 5 ∧
    exampleConfig.eras_per_cycle = 10 ∧
    exampleConfig.build_and_earn_eras_per_cycle = 8 := by
  decide

/-- C2, counterexample: the claim as stated fails on the valid
configuration whose build-and-earn subperiod length is `u32::MAX`
(4294967295): there `eras_per_period()` is the saturated value
4294967295, not `eras_per_build_and_earn_subperiod() + 1 = 4294967296`. -/
theorem eras_per_period_plus_one_counterexample :
    maxBuildAndEarnConfig.Valid ∧
    maxBuildAndEarnConfig.eras_per_period ≠
      maxBuildAndEarnConfig.eras_per_build_and_earn_subperiod + 1 := by
  decide

/-- C2 (amended): for every valid configuration (each base constant ≥ 1),
`eras_per_period()` equals `eras_per_build_and_earn_subperiod()`
saturating-plus 1 (the voting subperiod contributing exactly one era
regardless of its length), and `eras_per_cycle()` equals
`eras_per_period()` saturating-times `periods_per_cycle()`. -/
theorem eras_per_period_eras_per_cycle (c : CycleConfiguration) (_h : c.Valid) :
    c.eras_per_period = satAdd32 c.eras_per_build_and_earn_subperiod 1 ∧
    c.eras_per_cycle = satMul32 c.eras_per_period c.periods_per_cycle :=
  ⟨rfl, rfl⟩

/-- C2 witness: the spec's example configuration is valid and satisfies
the amended equations. -/
theorem eras_per_period_eras_per_cycle_witness :
    exampleConfig.Valid ∧
    (exampleConfig.eras_per_period = satAdd32 exampleConfig.eras_per_build_and_earn_subperiod 1 ∧
     exampleConfig.eras_per_cycle = satMul32 exampleConfig.eras_per_period exampleConfig.periods_per_cycle) :=
  ⟨by decide, eras_per_period_eras_per_cycle exampleConfig (by decide)⟩

/-- C3: with every base constant at `u32::MAX`, each of the six derived
accessors returns the saturated maximum `u32::MAX`; and for any
configuration at all, `blocks_per_era() = MAX` together with
`cycle_in_era_lengths() = MAX` forces `blocks_per_cycle() = MAX`. -/
theorem derived_accessors_saturate_at_max :
    (allMaxConfig.period_in_era_lengths = U32_MAX ∧
     allMaxConfig.cycle_in_era_lengths = U32_MAX ∧
     allMaxConfig.blocks_per_cycle = U32_MAX ∧
     allMaxConfig.build_and_earn_eras_per_cycle = U32_MAX ∧
     allMaxConfig.eras_per_period = U32_MAX ∧
     allMaxConfig.eras_per_cycle = U32_MAX) ∧
    ∀ c : CycleConfiguration, c.blocks_per_era = U32_MAX →
      c.cycle_in_era_lengths = U32_MAX → c.blocks_per_cycle = U32_MAX := by
  constructor
  · decide
  · intro c hb hc
    unfold CycleConfiguration.blocks_per_cycle satMul32
    rw [hb, hc]
    have h1 : U32_MAX ≤ U32_MAX * U32_MAX :=
      Nat.le_mul_of_pos_left U32_MAX (by decide)
    omega

/-- C3 witness: instantiating the universally quantified part at the
all-maximum configuration, whose `blocks_per_era` and
`cycle_in_era_lengths` are both `u32::MAX`. -/
theorem derived_accessors_saturate_at_max_witness :
    allMaxConfig.blocks_per_era = U32_MAX ∧
    allMaxConfig.cycle_in_era_lengths = U32_MAX ∧
    allMaxConfig.blocks_per_cycle = U32_MAX :=
  ⟨by decide, by decide,
    derived_accessors_saturate_at_max.2 allMaxConfig (by decide) (by decide)⟩

/-- C5: the derived operations are total Lean functions (no panic and no
division anywhere in them), and when `periods_per_cycle` is zero the
four cycle-scaled quantities all degenerate to zero. -/
theorem zero_periods_per_cycle_degenerates (c : CycleConfiguration)
    (h : c.periods_per_cycle = 0) :
    c.cycle_in_era_lengths = 0 ∧ c.blocks_per_cycle = 0 ∧
    c.build_and_earn_eras_per_cycle = 0 ∧ c.eras_per_cycle = 0 := by
  have hc : c.cycle_in_era_lengths = 0 := by
    simp [CycleConfiguration.cycle_in_era_lengths, satMul32, h]
  refine ⟨hc, ?_, ?_, ?_⟩
  · simp [CycleConfiguration.blocks_per_cycle, satMul32, hc]
  · simp [CycleConfiguration.build_and_earn_eras_per_cycle, satMul32, h]
  · simp [CycleConfiguration.eras_per_cycle, satMul32, h]

/-- C5 witness: a configuration with `periods_per_cycle = 0` and the
other constants as in the spec example. -/
theorem zero_periods_per_cycle_degenerates_witness :
    (CycleConfiguration.mk 0 3 4 100).periods_per_cycle = 0 ∧
    ((CycleConfiguration.mk 0 3 4 100).cycle_in_era_lengths = 0 ∧
     (CycleConfiguration.mk 0 3 4 100).blocks_per_cycle = 0 ∧
     (CycleConfiguration.mk 0 3 4 100).build_and_earn_eras_per_cycle = 0 ∧
     (CycleConfiguration.mk 0 3 4 100).eras_per_cycle = 0) :=
  ⟨rfl, zero_periods_per_cycle_degenerates (CycleConfiguration.mk 0 3 4 100) rfl⟩

/-- C9: whenever `eras_per_voting_subperiod ≥ 1`, the period's era-length
span is at least its era count, `period_in_era_lengths() ≥
eras_per_period()`, and consequently `cycle_in_era_lengths() ≥
eras_per_cycle()`, even under saturation. -/
theorem period_span_dominates_era_count (c : CycleConfiguration)
    (h : 1 ≤ c.eras_per_voting_subperiod) :
    c.eras_per_period ≤ c.period_in_era_lengths ∧
    c.eras_per_cycle ≤ c.cycle_in_era_lengths := by
  have hp : c.eras_per_period ≤ c.period_in_era_lengths := by
    unfold CycleConfiguration.eras_per_period CycleConfiguration.period_in_era_lengths satAdd32
    exact min_le_min (by omega) le_rfl
  refine ⟨hp, ?_⟩
  unfold CycleConfiguration.eras_per_cycle CycleConfiguration.cycle_in_era_lengths satMul32
  exact min_le_min (Nat.mul_le_mul_right _ hp) le_rfl

/-- C9 witness: the spec's example configuration has a voting subperiod
of length 3 ≥ 1 and satisfies both inequalities. -/
theorem period_span_dominates_era_count_witness :
    1 ≤ exampleConfig.eras_per_voting_subperiod ∧
    (exampleConfig.eras_per_period ≤ exampleConfig.period_in_era_lengths ∧
     exampleConfig.eras_per_cycle ≤ exampleConfig.cycle_in_era_lengths) :=
  ⟨by decide, period_span_dominates_era_count exampleConfig (by decide)⟩

/-- C6: `payout_reward(beneficiary, reward)` either succeeds, crediting
the full reward to the beneficiary and leaving every other account
balance and the rest of the ledger state untouched, or fails with the
generic failure signal and leaves the whole ledger state unchanged: the
operation is atomic from the caller's perspective. -/
theorem payout_reward_atomic {AccountId : Type} [DecidableEq AccountId]
    (st : Ledger AccountId) (beneficiary : AccountId) (reward : ℕ) :
    ((payout_reward st beneficiary reward).1 = Except.ok () →
      (payout_reward st beneficiary reward).2.balance beneficiary =
        st.balance beneficiary + reward ∧
      (∀ a, a ≠ beneficiary →
        (payout_reward st beneficiary reward).2.balance a = st.balance a) ∧
      (payout_reward st beneficiary reward).2.canReceive = st.canReceive) ∧
    ((payout_reward st beneficiary reward).1 = Except.error () →
      (payout_reward st beneficiary reward).2 = st) := by
  by_cases hcr : st.canReceive beneficiary = true
  · have hpr : payout_reward st beneficiary reward =
        (Except.ok (),
          { st with
              balance := fun a =>
                if a = beneficiary then st.balance a + reward else st.balance a }) := by
      unfold payout_reward
      rw [if_pos hcr]
    rw [hpr]
    exact ⟨fun _ => ⟨by simp, fun a ha => by simp [ha], rfl⟩,
      fun hcontra => Except.noConfusion hcontra⟩
  · have hpr : payout_reward st beneficiary reward = (Except.error (), st) := by
      unfold payout_reward
      rw [if_neg hcr]
    rw [hpr]
    exact ⟨fun hcontra => Except.noConfusion hcontra, fun _ => rfl⟩

/-- C6 witness: on a concrete two-account ledger where every payout
succeeds, paying 5 to account `true` credits exactly 5; on a concrete
ledger where payouts fail, the ledger is returned unchanged. -/
theorem payout_reward_atomic_witness :
    (payout_reward okLedger true 5).2.balance true = okLedger.balance true + 5 ∧
    (payout_reward failLedger true 5).2 = failLedger :=
  ⟨((payout_reward_atomic okLedger true 5).1 rfl).1,
    (payout_reward_atomic failLedger true 5).2 rfl⟩

/-- C7: the default (no-listener) observer, the `()` implementation that
keeps the trait's default method body, returns zero consumed weight for
every era number. -/
theorem default_observer_zero_weight (next_era : ℕ) :
    unitObserver.block_before_new_era next_era = Weight.zero := rfl

/-- C8: the default account-gating policy, the `()` implementation of
`AccountCheck`, lets every account stake, for any account-identifier
type. -/
theorem default_account_check_allows_all (AccountId : Type) (account : AccountId) :
    (unitAccountCheck AccountId).allowed_to_stake account = true := rfl

/-- C10: equality of `SmartContract` values is structural over the
active variant: `evm a = evm b` exactly when `a = b`, `wasm x = wasm y`
exactly when `x = y`, and an `evm` contract never equals a `wasm`
contract. -/
theorem smart_contract_structural_equality (AccountId : Type) (a b : H160)
    (x y : AccountId) :
    ((SmartContract.evm a : SmartContract AccountId) = SmartContract.evm b ↔ a = b) ∧
    ((SmartContract.wasm x : SmartContract AccountId) = SmartContract.wasm y ↔ x = y) ∧
    (SmartContract.evm a : SmartContract AccountId) ≠ SmartContract.wasm x := by
  refine ⟨?_, ?_, ?_⟩ <;> simp [SmartContract.evm, SmartContract.wasm]

end DappStaking
